import Mathlib

/-!
Verification of the agent-browser-mcp command-dispatch and tool-surface
consolidation layer.

The development shallowly embeds the JavaScript/TypeScript sources:

* `mapMergedToolToCommand` (dist/tool-merger.js) becomes a Lean function over
  an embedded JavaScript value type `JsValue`; argument bags and commands are
  insertion-ordered association lists mirroring JavaScript objects.
* the merged server (index.ts): `getManager`, `ensureBrowserLaunched`,
  `execute`, `handleToolCall` and the tool-call request boundary become
  explicit state-passing functions over a server state; the external
  automation driver (browser.js / actions.js, not part of the sources)
  is an oracle parameter giving each driver call's outcome.
* the merged tool registry (src/tools-merged.ts) contributes the advertised
  tool names and the discriminant enums used by the bijection claims.
-/

set_option autoImplicit false

namespace AgentBrowser

/-- Embedded JavaScript runtime values (the subset the sources manipulate). -/
inductive JsValue where
  | undef
  | vnull
  | jbool (b : Bool)
  | jnum (n : Int)
  | jstr (s : String)
  | jarr (elems : List JsValue)
  | jobj (fields : List (String × JsValue))

/-- A JavaScript object: insertion-ordered association list of fields. -/
abbrev Obj := List (String × JsValue)

/-- First binding of key `k`, if the key is an own property of the object. -/
def getField (o : Obj) (k : String) : Option JsValue :=
  match o with
  | [] => none
  | (k1, v) :: rest => if k1 = k then some v else getField rest k

/-- JavaScript member access `o.k`: `undefined` when the key is absent. -/
def jsIndex (o : Obj) (k : String) : JsValue :=
  (getField o k).getD JsValue.undef

/-- The test `o.k !== undefined` used by the mapper's optional-field guards. -/
def jsDefined (o : Obj) (k : String) : Bool :=
  match jsIndex o k with
  | JsValue.undef => false
  | _ => true

/-- Strict equality `v === 's'` against a string literal. -/
def isStrVal (v : JsValue) (s : String) : Bool :=
  match v with
  | JsValue.jstr t => t == s
  | _ => false

/-- JavaScript property assignment `o.k = v`: replace in place, else append. -/
def setKey (o : Obj) (k : String) (v : JsValue) : Obj :=
  match o with
  | [] => [(k, v)]
  | (k1, v1) :: rest => if k1 = k then (k, v) :: rest else (k1, v1) :: setKey rest k v

/-- Object spread `{ ...base, ...src }`: assign the fields of `src` in order. -/
def objSpread (base : Obj) (src : Obj) : Obj :=
  src.foldl (fun acc kv => setKey acc kv.1 kv.2) base

/-- Nullish coalescing `v ?? d`. -/
def nullish (v : JsValue) (d : JsValue) : JsValue :=
  match v with
  | JsValue.undef => d
  | JsValue.vnull => d
  | x => x

/-- JavaScript truthiness of a value. -/
def jsTruthy (v : JsValue) : Bool :=
  match v with
  | JsValue.undef => false
  | JsValue.vnull => false
  | JsValue.jbool b => b
  | JsValue.jnum n => n != 0
  | JsValue.jstr s => s != ""
  | JsValue.jarr _ => true
  | JsValue.jobj _ => true

mutual

/-- JavaScript string coercion, as used in template literals and computed
property keys (arrays join their elements with commas, with `null` and
`undefined` elements printing as empty; objects print opaquely). -/
def jsToString : JsValue → String
  | JsValue.undef => "undefined"
  | JsValue.vnull => "null"
  | JsValue.jbool b => if b then "true" else "false"
  | JsValue.jnum n => toString n
  | JsValue.jstr s => s
  | JsValue.jobj _ => "[object Object]"
  | JsValue.jarr xs => String.intercalate "," (jsToStringList xs)

/-- String coercions of the elements of an array value. -/
def jsToStringList : List JsValue → List String
  | [] => []
  | JsValue.undef :: rest => "" :: jsToStringList rest
  | JsValue.vnull :: rest => "" :: jsToStringList rest
  | v :: rest => jsToString v :: jsToStringList rest

end

/-- Lookup in a string-to-string literal map such as `findByActionMap[m]`:
the key coerces to a string, a missing key yields `undefined`. -/
def mapLookup (m : List (String × String)) (k : JsValue) : JsValue :=
  match m.lookup (jsToString k) with
  | some v => JsValue.jstr v
  | none => JsValue.undef

/-! ## The merged tool-call mapper (dist/tool-merger.js, `mapMergedToolToCommand`)

Each `case` of the source's `switch (name)` becomes one `match` arm; object
literals become association lists, conditional field assignments become
guarded `setKey`s, and the `default` throw becomes an `Except.error`. -/

/-- `findByActionMap` of the `browser_find` case. -/
def findByActionMap : List (String × String) :=
  [("role", "find_by_role"),
   ("text", "find_by_text"),
   ("label", "find_by_label"),
   ("placeholder", "find_by_placeholder"),
   ("testId", "find_by_test_id"),
   ("title", "find_by_title"),
   ("altText", "find_by_alt_text"),
   ("nth", "find_nth")]

/-- `getActionMap` of the `browser_get` case. -/
def getActionMap : List (String × String) :=
  [("text", "get_text"),
   ("innerText", "get_inner_text"),
   ("innerHtml", "get_inner_html"),
   ("html", "content"),
   ("value", "get_value"),
   ("attribute", "get_attribute"),
   ("boundingBox", "bounding_box"),
   ("count", "count")]

/-- `stateActionMap` of the `browser_check_state` case. -/
def stateActionMap : List (String × String) :=
  [("visible", "is_visible"),
   ("enabled", "is_enabled"),
   ("checked", "is_checked")]

/-- `storageActionMap` of the `browser_storage` case. -/
def storageActionMap : List (String × String) :=
  [("get", "get"), ("set", "set"), ("clear", "clear")]

/-- `waitForActionMap` of the `browser_wait_for` case. -/
def waitForActionMap : List (String × String) :=
  [("url", "wait_for_url"),
   ("load_state", "wait_for_load_state"),
   ("function", "wait_for_function"),
   ("download", "wait_for_download")]

/-- `case 'browser_launch'`: `{ action: 'launch', ...args }`. -/
def caseLaunch (args : Obj) : Obj :=
  objSpread [("action", JsValue.jstr "launch")] args

/-- `case 'browser_navigate'`: `{ action: 'navigate', ...args }`. -/
def caseNavigate (args : Obj) : Obj :=
  objSpread [("action", JsValue.jstr "navigate")] args

/-- `case 'browser_snapshot'`: `{ action: 'snapshot', ...args }`. -/
def caseSnapshot (args : Obj) : Obj :=
  objSpread [("action", JsValue.jstr "snapshot")] args

/-- `case 'browser_screenshot'`: `{ action: 'screenshot', ...args }`. -/
def caseScreenshot (args : Obj) : Obj :=
  objSpread [("action", JsValue.jstr "screenshot")] args

/-- `case 'browser_close'`: `{ action: 'close', ...args }`. -/
def caseClose (args : Obj) : Obj :=
  objSpread [("action", JsValue.jstr "close")] args

/-- `case 'browser_history'`: pass the history action through. -/
def caseHistory (args : Obj) : Obj :=
  let historyAction := jsIndex args "action"
  [("action", historyAction)]

/-- `case 'browser_page_info'`: `info === 'url' ? 'url' : 'title'`. -/
def casePageInfo (args : Obj) : Obj :=
  let pageInfo := jsIndex args "info"
  [("action", if isStrVal pageInfo "url" then JsValue.jstr "url" else JsValue.jstr "title")]

/-- `case 'browser_element_action'`. -/
def caseElementAction (args : Obj) : Obj :=
  let elemAction := jsIndex args "action"
  let elemCmd : Obj := [("action", elemAction), ("selector", jsIndex args "selector")]
  let elemCmd := if jsDefined args "button" then setKey elemCmd "button" (jsIndex args "button") else elemCmd
  let elemCmd := if jsDefined args "clickCount" then setKey elemCmd "clickCount" (jsIndex args "clickCount") else elemCmd
  elemCmd

/-- `case 'browser_input'`: `fill` or else `type`. -/
def caseInput (args : Obj) : Obj :=
  if isStrVal (jsIndex args "action") "fill" then
    [("action", JsValue.jstr "fill"), ("selector", jsIndex args "selector"), ("value", jsIndex args "value")]
  else
    let typeCmd : Obj := [("action", JsValue.jstr "type"), ("selector", jsIndex args "selector"), ("text", jsIndex args "value")]
    let typeCmd := if jsDefined args "delay" then setKey typeCmd "delay" (jsIndex args "delay") else typeCmd
    typeCmd

/-- `case 'browser_input_action'`: pass the action through. -/
def caseInputAction (args : Obj) : Obj :=
  [("action", jsIndex args "action"), ("selector", jsIndex args "selector")]

/-- `case 'browser_press'`. -/
def casePress (args : Obj) : Obj :=
  let pressCmd : Obj := [("action", JsValue.jstr "press"), ("key", jsIndex args "key")]
  let pressCmd := if jsDefined args "selector" then setKey pressCmd "selector" (jsIndex args "selector") else pressCmd
  pressCmd

/-- `case 'browser_scroll'`: `scroll_into_view` or else `scroll`. -/
def caseScroll (args : Obj) : Obj :=
  if isStrVal (jsIndex args "action") "scroll_into_view" then
    [("action", JsValue.jstr "scroll_into_view"), ("selector", jsIndex args "selector")]
  else
    let scrollCmd : Obj := [("action", JsValue.jstr "scroll")]
    let scrollCmd := if jsDefined args "selector" then setKey scrollCmd "selector" (jsIndex args "selector") else scrollCmd
    let scrollCmd := if jsDefined args "direction" then setKey scrollCmd "direction" (jsIndex args "direction") else scrollCmd
    let scrollCmd := if jsDefined args "amount" then setKey scrollCmd "amount" (jsIndex args "amount") else scrollCmd
    let scrollCmd := if jsDefined args "x" then setKey scrollCmd "x" (jsIndex args "x") else scrollCmd
    let scrollCmd := if jsDefined args "y" then setKey scrollCmd "y" (jsIndex args "y") else scrollCmd
    scrollCmd

/-- `case 'browser_find'`: look the method up in `findByActionMap`, fill the
method-specific search key (a computed property key), then optionally
overwrite the action and fill value. -/
def caseFind (args : Obj) : Obj :=
  let method := jsIndex args "method"
  let findCmd : Obj := [("action", mapLookup findByActionMap method)]
  let findCmd :=
    if isStrVal method "nth" then
      let findCmd := setKey findCmd "selector" (jsIndex args "selector")
      setKey findCmd "index" (nullish (jsIndex args "index") (JsValue.jnum 0))
    else
      let computedKey :=
        if isStrVal (jsIndex args "method") "testId" then "testId"
        else if isStrVal method "altText" then "text"
        else jsToString method
      let findCmd := setKey findCmd computedKey (jsIndex args "value")
      if jsDefined args "exact" then setKey findCmd "exact" (jsIndex args "exact") else findCmd
  let findCmd :=
    if jsDefined args "action" then
      let findCmd := setKey findCmd "action" (jsIndex args "action")
      if isStrVal (jsIndex args "action") "fill" && jsDefined args "fillValue" then
        setKey findCmd "value" (jsIndex args "fillValue")
      else findCmd
    else findCmd
  findCmd

/-- `case 'browser_get'`: look the property up in `getActionMap`. -/
def caseGet (args : Obj) : Obj :=
  let prop := jsIndex args "property"
  let getCmd : Obj := [("action", mapLookup getActionMap prop), ("selector", jsIndex args "selector")]
  let getCmd := if isStrVal prop "attribute" then setKey getCmd "attribute" (jsIndex args "attribute") else getCmd
  getCmd

/-- `case 'browser_check_state'`: look the state up in `stateActionMap`. -/
def caseCheckState (args : Obj) : Obj :=
  [("action", mapLookup stateActionMap (jsIndex args "state")), ("selector", jsIndex args "selector")]

/-- `case 'browser_storage'`: look the action up in `storageActionMap`. -/
def caseStorage (args : Obj) : Obj :=
  let storageCmd : Obj := [("action", mapLookup storageActionMap (jsIndex args "action")), ("type", jsIndex args "type")]
  let storageCmd := if jsDefined args "key" then setKey storageCmd "key" (jsIndex args "key") else storageCmd
  let storageCmd := if jsDefined args "value" then setKey storageCmd "value" (jsIndex args "value") else storageCmd
  storageCmd

/-- `case 'browser_cookies'`: `get` or else `set`. -/
def caseCookies (args : Obj) : Obj :=
  if isStrVal (jsIndex args "action") "get" then
    let getCookieCmd : Obj := [("action", JsValue.jstr "get")]
    let getCookieCmd := if jsDefined args "urls" then setKey getCookieCmd "urls" (jsIndex args "urls") else getCookieCmd
    getCookieCmd
  else
    [("action", JsValue.jstr "set"), ("cookies", jsIndex args "cookies")]

/-- `case 'browser_state'`: `save ? state_save : state_load`. -/
def caseState (args : Obj) : Obj :=
  [("action", if isStrVal (jsIndex args "action") "save" then JsValue.jstr "state_save" else JsValue.jstr "state_load"),
   ("path", jsIndex args "path")]

/-- `case 'browser_set_context'`: inner switch on `setting`; with no default
case an unknown setting leaves the command empty. -/
def caseSetContext (args : Obj) : Obj :=
  let setting := jsIndex args "setting"
  if isStrVal setting "device" then
    setKey (setKey [] "action" (JsValue.jstr "set_device")) "device" (jsIndex args "device")
  else if isStrVal setting "viewport" then
    setKey (setKey (setKey [] "action" (JsValue.jstr "set_viewport")) "width" (jsIndex args "width")) "height" (jsIndex args "height")
  else if isStrVal setting "geolocation" then
    let c := setKey (setKey (setKey [] "action" (JsValue.jstr "set_geolocation")) "latitude" (jsIndex args "latitude")) "longitude" (jsIndex args "longitude")
    if jsDefined args "accuracy" then setKey c "accuracy" (jsIndex args "accuracy") else c
  else if isStrVal setting "locale" then
    setKey (setKey [] "action" (JsValue.jstr "set_locale")) "locale" (jsIndex args "locale")
  else if isStrVal setting "timezone" then
    setKey (setKey [] "action" (JsValue.jstr "set_timezone")) "timezone" (jsIndex args "timezone")
  else if isStrVal setting "offline" then
    setKey (setKey [] "action" (JsValue.jstr "set_offline")) "offline" (jsIndex args "offline")
  else if isStrVal setting "media" then
    let c := setKey [] "action" (JsValue.jstr "emulate_media")
    let c := if jsDefined args "media" then setKey c "media" (jsIndex args "media") else c
    let c := if jsDefined args "colorScheme" then setKey c "colorScheme" (jsIndex args "colorScheme") else c
    if jsDefined args "reducedMotion" then setKey c "reducedMotion" (jsIndex args "reducedMotion") else c
  else if isStrVal setting "headers" then
    setKey (setKey [] "action" (JsValue.jstr "set_headers")) "headers" (jsIndex args "headers")
  else if isStrVal setting "credentials" then
    setKey (setKey (setKey [] "action" (JsValue.jstr "set_credentials")) "username" (jsIndex args "username")) "password" (jsIndex args "password")
  else []

/-- `case 'browser_dialog'`: `accept ? dialog_accept : dialog_dismiss`. -/
def caseDialog (args : Obj) : Obj :=
  let dialogCmd : Obj := [("action", if isStrVal (jsIndex args "action") "accept" then JsValue.jstr "dialog_accept" else JsValue.jstr "dialog_dismiss")]
  let dialogCmd := if jsDefined args "promptText" then setKey dialogCmd "promptText" (jsIndex args "promptText") else dialogCmd
  dialogCmd

/-- `case 'browser_mouse'`: nested ternary on the mouse action. -/
def caseMouse (args : Obj) : Obj :=
  let mouseCmd : Obj :=
    [("action",
      if isStrVal (jsIndex args "action") "down" then JsValue.jstr "mouse_down"
      else if isStrVal (jsIndex args "action") "up" then JsValue.jstr "mouse_up"
      else if isStrVal (jsIndex args "action") "move" then JsValue.jstr "mouse_move"
      else JsValue.jstr "wheel")]
  let mouseCmd := if jsDefined args "button" then setKey mouseCmd "button" (jsIndex args "button") else mouseCmd
  let mouseCmd := if jsDefined args "x" then setKey mouseCmd "x" (jsIndex args "x") else mouseCmd
  let mouseCmd := if jsDefined args "y" then setKey mouseCmd "y" (jsIndex args "y") else mouseCmd
  let mouseCmd := if jsDefined args "deltaX" then setKey mouseCmd "deltaX" (jsIndex args "deltaX") else mouseCmd
  let mouseCmd := if jsDefined args "deltaY" then setKey mouseCmd "deltaY" (jsIndex args "deltaY") else mouseCmd
  let mouseCmd := if jsDefined args "selector" then setKey mouseCmd "selector" (jsIndex args "selector") else mouseCmd
  mouseCmd

/-- `case 'browser_keyboard_raw'`: `shortcut`, or else `down ? key_down : key_up`. -/
def caseKeyboardRaw (args : Obj) : Obj :=
  if isStrVal (jsIndex args "action") "shortcut" then
    [("action", JsValue.jstr "keyboard"), ("keys", jsIndex args "keys")]
  else
    [("action", if isStrVal (jsIndex args "action") "down" then JsValue.jstr "key_down" else JsValue.jstr "key_up"),
     ("key", jsIndex args "key")]

/-- `case 'browser_network'`: `requests`, `route`, or else `unroute`. -/
def caseNetwork (args : Obj) : Obj :=
  if isStrVal (jsIndex args "action") "requests" then
    let reqCmd : Obj := [("action", JsValue.jstr "requests")]
    let reqCmd := if jsDefined args "filter" then setKey reqCmd "filter" (jsIndex args "filter") else reqCmd
    let reqCmd := if jsDefined args "clear" then setKey reqCmd "clear" (jsIndex args "clear") else reqCmd
    reqCmd
  else if isStrVal (jsIndex args "action") "route" then
    let routeCmd : Obj := [("action", JsValue.jstr "route"), ("url", jsIndex args "url")]
    let routeCmd := if jsDefined args "abort" then setKey routeCmd "abort" (jsIndex args "abort") else routeCmd
    let routeCmd := if jsDefined args "response" then setKey routeCmd "response" (jsIndex args "response") else routeCmd
    routeCmd
  else
    [("action", JsValue.jstr "unroute"), ("url", jsIndex args "url")]

/-- `case 'browser_response_body'`. -/
def caseResponseBody (args : Obj) : Obj :=
  let respCmd : Obj := [("action", JsValue.jstr "response_body"), ("url", jsIndex args "url")]
  let respCmd := if jsDefined args "timeout" then setKey respCmd "timeout" (jsIndex args "timeout") else respCmd
  respCmd

/-- `case 'browser_evaluate'`. -/
def caseEvaluate (args : Obj) : Obj :=
  let evalCmd : Obj := [("action", JsValue.jstr "evaluate"), ("script", jsIndex args "script")]
  let evalCmd := if jsDefined args "args" then setKey evalCmd "args" (jsIndex args "args") else evalCmd
  evalCmd

/-- `case 'browser_set_content'`. -/
def caseSetContent (args : Obj) : Obj :=
  [("action", JsValue.jstr "set_content"), ("html", jsIndex args "html")]

/-- `case 'browser_add_script'`: `{ action: 'add_script', ...args }`. -/
def caseAddScript (args : Obj) : Obj :=
  objSpread [("action", JsValue.jstr "add_script")] args

/-- `case 'browser_add_style'`: `{ action: 'add_style', ...args }`. -/
def caseAddStyle (args : Obj) : Obj :=
  objSpread [("action", JsValue.jstr "add_style")] args

/-- `case 'browser_add_init_script'`. -/
def caseAddInitScript (args : Obj) : Obj :=
  [("action", JsValue.jstr "add_init_script"), ("script", jsIndex args "script")]

/-- `case 'browser_dispatch_event'`. -/
def caseDispatchEvent (args : Obj) : Obj :=
  let eventCmd : Obj := [("action", JsValue.jstr "dispatch_event"), ("selector", jsIndex args "selector"), ("event", jsIndex args "event")]
  let eventCmd := if jsDefined args "eventInit" then setKey eventCmd "eventInit" (jsIndex args "eventInit") else eventCmd
  eventCmd

/-- `case 'browser_logs'`: `{ action: args.type, clear: args.clear }`. -/
def caseLogs (args : Obj) : Obj :=
  [("action", jsIndex args "type"), ("clear", jsIndex args "clear")]

/-- `case 'browser_highlight'`. -/
def caseHighlight (args : Obj) : Obj :=
  [("action", JsValue.jstr "highlight"), ("selector", jsIndex args "selector")]

/-- `case 'browser_styles'`. -/
def caseStyles (args : Obj) : Obj :=
  [("action", JsValue.jstr "styles"), ("selector", jsIndex args "selector")]

/-- `case 'browser_screencast'`: `start ? screencast_start : screencast_stop`. -/
def caseScreencast (args : Obj) : Obj :=
  let screencastCmd : Obj := [("action", if isStrVal (jsIndex args "action") "start" then JsValue.jstr "screencast_start" else JsValue.jstr "screencast_stop")]
  let screencastCmd := if jsDefined args "format" then setKey screencastCmd "format" (jsIndex args "format") else screencastCmd
  let screencastCmd := if jsDefined args "quality" then setKey screencastCmd "quality" (jsIndex args "quality") else screencastCmd
  let screencastCmd := if jsDefined args "maxWidth" then setKey screencastCmd "maxWidth" (jsIndex args "maxWidth") else screencastCmd
  let screencastCmd := if jsDefined args "maxHeight" then setKey screencastCmd "maxHeight" (jsIndex args "maxHeight") else screencastCmd
  screencastCmd

/-- `case 'browser_trace'`: `start ? trace_start : trace_stop`; `stop`
copies `path` unconditionally. -/
def caseTrace (args : Obj) : Obj :=
  let traceCmd : Obj := [("action", if isStrVal (jsIndex args "action") "start" then JsValue.jstr "trace_start" else JsValue.jstr "trace_stop")]
  if isStrVal (jsIndex args "action") "start" then
    let traceCmd := if jsDefined args "screenshots" then setKey traceCmd "screenshots" (jsIndex args "screenshots") else traceCmd
    if jsDefined args "snapshots" then setKey traceCmd "snapshots" (jsIndex args "snapshots") else traceCmd
  else
    setKey traceCmd "path" (jsIndex args "path")

/-- `case 'browser_recording'`: start / stop / else restart. -/
def caseRecording (args : Obj) : Obj :=
  let recAction :=
    if isStrVal (jsIndex args "action") "start" then "recording_start"
    else if isStrVal (jsIndex args "action") "stop" then "recording_stop"
    else "recording_restart"
  let recCmd : Obj := [("action", JsValue.jstr recAction)]
  let recCmd := if jsDefined args "path" then setKey recCmd "path" (jsIndex args "path") else recCmd
  let recCmd := if jsDefined args "url" then setKey recCmd "url" (jsIndex args "url") else recCmd
  recCmd

/-- `case 'browser_har'`: `start ? har_start : har_stop`; `stop` copies
`path` unconditionally. -/
def caseHar (args : Obj) : Obj :=
  let harCmd : Obj := [("action", if isStrVal (jsIndex args "action") "start" then JsValue.jstr "har_start" else JsValue.jstr "har_stop")]
  let harCmd := if isStrVal (jsIndex args "action") "stop" then setKey harCmd "path" (jsIndex args "path") else harCmd
  harCmd

/-- `case 'browser_tab'`: template literal `tab_${args.action}`. -/
def caseTab (args : Obj) : Obj :=
  let tabCmd : Obj := [("action", JsValue.jstr ("tab_" ++ jsToString (jsIndex args "action")))]
  let tabCmd := if jsDefined args "index" then setKey tabCmd "index" (jsIndex args "index") else tabCmd
  let tabCmd := if jsDefined args "url" then setKey tabCmd "url" (jsIndex args "url") else tabCmd
  tabCmd

/-- `case 'browser_window'`: `new` builds a nested viewport object, or else
`bring_to_front`. -/
def caseWindow (args : Obj) : Obj :=
  if isStrVal (jsIndex args "action") "new" then
    let winCmd : Obj := [("action", JsValue.jstr "window_new")]
    if jsDefined args "viewportWidth" || jsDefined args "viewportHeight" then
      let vp : Obj := []
      let vp := if jsDefined args "viewportWidth" then setKey vp "width" (jsIndex args "viewportWidth") else vp
      let vp := if jsDefined args "viewportHeight" then setKey vp "height" (jsIndex args "viewportHeight") else vp
      setKey winCmd "viewport" (JsValue.jobj vp)
    else winCmd
  else
    [("action", JsValue.jstr "bring_to_front")]

/-- `case 'browser_frame'`: `main ? main_frame : frame`. -/
def caseFrame (args : Obj) : Obj :=
  if isStrVal (jsIndex args "action") "main" then
    [("action", JsValue.jstr "main_frame")]
  else
    let frameCmd : Obj := [("action", JsValue.jstr "frame")]
    let frameCmd := if jsDefined args "selector" then setKey frameCmd "selector" (jsIndex args "selector") else frameCmd
    let frameCmd := if jsDefined args "name" then setKey frameCmd "name" (jsIndex args "name") else frameCmd
    let frameCmd := if jsDefined args "url" then setKey frameCmd "url" (jsIndex args "url") else frameCmd
    frameCmd

/-- `case 'browser_pdf'`. -/
def casePdf (args : Obj) : Obj :=
  let pdfCmd : Obj := [("action", JsValue.jstr "pdf"), ("path", jsIndex args "path")]
  let pdfCmd := if jsDefined args "format" then setKey pdfCmd "format" (jsIndex args "format") else pdfCmd
  pdfCmd

/-- `case 'browser_download'`. -/
def caseDownload (args : Obj) : Obj :=
  [("action", JsValue.jstr "download"), ("selector", jsIndex args "selector"), ("path", jsIndex args "path")]

/-- `case 'browser_wait'`. -/
def caseWait (args : Obj) : Obj :=
  let waitCmd : Obj := [("action", JsValue.jstr "wait")]
  let waitCmd := if jsDefined args "selector" then setKey waitCmd "selector" (jsIndex args "selector") else waitCmd
  let waitCmd := if jsDefined args "timeout" then setKey waitCmd "timeout" (jsIndex args "timeout") else waitCmd
  let waitCmd := if jsDefined args "state" then setKey waitCmd "state" (jsIndex args "state") else waitCmd
  waitCmd

/-- `case 'browser_wait_for'`: look the condition up in `waitForActionMap`. -/
def caseWaitFor (args : Obj) : Obj :=
  let waitForCmd : Obj := [("action", mapLookup waitForActionMap (jsIndex args "condition"))]
  let waitForCmd := if jsDefined args "url" then setKey waitForCmd "url" (jsIndex args "url") else waitForCmd
  let waitForCmd := if jsDefined args "state" then setKey waitForCmd "state" (jsIndex args "state") else waitForCmd
  let waitForCmd := if jsDefined args "expression" then setKey waitForCmd "expression" (jsIndex args "expression") else waitForCmd
  let waitForCmd := if jsDefined args "path" then setKey waitForCmd "path" (jsIndex args "path") else waitForCmd
  let waitForCmd := if jsDefined args "timeout" then setKey waitForCmd "timeout" (jsIndex args "timeout") else waitForCmd
  waitForCmd

/-- `case 'browser_clipboard'`: constant action `clipboard`, the user action
becomes the `operation` field. -/
def caseClipboard (args : Obj) : Obj :=
  let clipCmd : Obj := [("action", JsValue.jstr "clipboard"), ("operation", jsIndex args "action")]
  let clipCmd := if jsDefined args "text" then setKey clipCmd "text" (jsIndex args "text") else clipCmd
  clipCmd

/-- `case 'browser_upload'`. -/
def caseUpload (args : Obj) : Obj :=
  [("action", JsValue.jstr "upload"), ("selector", jsIndex args "selector"), ("files", jsIndex args "files")]

/-- `case 'browser_drag'`. -/
def caseDrag (args : Obj) : Obj :=
  [("action", JsValue.jstr "drag"), ("source", jsIndex args "source"), ("target", jsIndex args "target")]

/-- `case 'browser_select'`. -/
def caseSelect (args : Obj) : Obj :=
  [("action", JsValue.jstr "select"), ("selector", jsIndex args "selector"), ("values", jsIndex args "values")]

/-- `case 'browser_multiselect'`. -/
def caseMultiselect (args : Obj) : Obj :=
  [("action", JsValue.jstr "multiselect"), ("selector", jsIndex args "selector"), ("values", jsIndex args "values")]

/-- `case 'browser_set_value'`. -/
def caseSetValue (args : Obj) : Obj :=
  [("action", JsValue.jstr "set_value"), ("selector", jsIndex args "selector"), ("value", jsIndex args "value")]

/-- `case 'browser_ios_device_list'`. -/
def caseIosDeviceList (_args : Obj) : Obj :=
  [("action", JsValue.jstr "device_list")]

/-- `case 'browser_ios_swipe'`. -/
def caseIosSwipe (args : Obj) : Obj :=
  let swipeCmd : Obj := [("action", JsValue.jstr "swipe"), ("direction", jsIndex args "direction")]
  let swipeCmd := if jsDefined args "distance" then setKey swipeCmd "distance" (jsIndex args "distance") else swipeCmd
  swipeCmd

/-- Convert merged tool call to original command format
(`mapMergedToolToCommand` in dist/tool-merger.js): an outer switch on the
tool name selecting the case above, with the `default` throw becoming an
`Except.error`. -/
def mapMergedToolToCommand (name : String) (args : Obj) : Except String Obj :=
  match name with
  | "browser_launch" => Except.ok (caseLaunch args)
  | "browser_navigate" => Except.ok (caseNavigate args)
  | "browser_snapshot" => Except.ok (caseSnapshot args)
  | "browser_screenshot" => Except.ok (caseScreenshot args)
  | "browser_close" => Except.ok (caseClose args)
  | "browser_history" => Except.ok (caseHistory args)
  | "browser_page_info" => Except.ok (casePageInfo args)
  | "browser_element_action" => Except.ok (caseElementAction args)
  | "browser_input" => Except.ok (caseInput args)
  | "browser_input_action" => Except.ok (caseInputAction args)
  | "browser_press" => Except.ok (casePress args)
  | "browser_scroll" => Except.ok (caseScroll args)
  | "browser_find" => Except.ok (caseFind args)
  | "browser_get" => Except.ok (caseGet args)
  | "browser_check_state" => Except.ok (caseCheckState args)
  | "browser_storage" => Except.ok (caseStorage args)
  | "browser_cookies" => Except.ok (caseCookies args)
  | "browser_state" => Except.ok (caseState args)
  | "browser_set_context" => Except.ok (caseSetContext args)
  | "browser_dialog" => Except.ok (caseDialog args)
  | "browser_mouse" => Except.ok (caseMouse args)
  | "browser_keyboard_raw" => Except.ok (caseKeyboardRaw args)
  | "browser_network" => Except.ok (caseNetwork args)
  | "browser_response_body" => Except.ok (caseResponseBody args)
  | "browser_evaluate" => Except.ok (caseEvaluate args)
  | "browser_set_content" => Except.ok (caseSetContent args)
  | "browser_add_script" => Except.ok (caseAddScript args)
  | "browser_add_style" => Except.ok (caseAddStyle args)
  | "browser_add_init_script" => Except.ok (caseAddInitScript args)
  | "browser_dispatch_event" => Except.ok (caseDispatchEvent args)
  | "browser_logs" => Except.ok (caseLogs args)
  | "browser_highlight" => Except.ok (caseHighlight args)
  | "browser_styles" => Except.ok (caseStyles args)
  | "browser_screencast" => Except.ok (caseScreencast args)
  | "browser_trace" => Except.ok (caseTrace args)
  | "browser_recording" => Except.ok (caseRecording args)
  | "browser_har" => Except.ok (caseHar args)
  | "browser_tab" => Except.ok (caseTab args)
  | "browser_window" => Except.ok (caseWindow args)
  | "browser_frame" => Except.ok (caseFrame args)
  | "browser_pdf" => Except.ok (casePdf args)
  | "browser_download" => Except.ok (caseDownload args)
  | "browser_wait" => Except.ok (caseWait args)
  | "browser_wait_for" => Except.ok (caseWaitFor args)
  | "browser_clipboard" => Except.ok (caseClipboard args)
  | "browser_upload" => Except.ok (caseUpload args)
  | "browser_drag" => Except.ok (caseDrag args)
  | "browser_select" => Except.ok (caseSelect args)
  | "browser_multiselect" => Except.ok (caseMultiselect args)
  | "browser_set_value" => Except.ok (caseSetValue args)
  | "browser_ios_device_list" => Except.ok (caseIosDeviceList args)
  | "browser_ios_swipe" => Except.ok (caseIosSwipe args)
  | _ => Except.error ("Unknown merged tool: " ++ name)

/-! ## The merged tool registry (src/tools-merged.ts, `MERGED_TOOLS`)

The registry data the claims need: the advertised tool names, and the
enums declared for the discriminant fields. -/

/-- The `name` of each entry of `MERGED_TOOLS`, in declaration order. -/
def mergedToolNames : List String :=
  ["browser_launch", "browser_navigate", "browser_snapshot", "browser_screenshot",
   "browser_close", "browser_history", "browser_page_info", "browser_element_action",
   "browser_input", "browser_input_action", "browser_select", "browser_press",
   "browser_scroll", "browser_find", "browser_get", "browser_check_state",
   "browser_storage", "browser_cookies", "browser_state", "browser_set_context",
   "browser_dialog", "browser_mouse", "browser_keyboard_raw", "browser_network",
   "browser_response_body", "browser_evaluate", "browser_set_content",
   "browser_add_script", "browser_add_style", "browser_add_init_script",
   "browser_dispatch_event", "browser_logs", "browser_highlight", "browser_styles",
   "browser_screencast", "browser_trace", "browser_recording", "browser_har",
   "browser_tab", "browser_window", "browser_frame", "browser_pdf",
   "browser_download", "browser_wait", "browser_wait_for", "browser_clipboard",
   "browser_upload", "browser_drag", "browser_multiselect", "browser_set_value",
   "browser_ios_device_list", "browser_ios_swipe"]

/-- The enums declared in `MERGED_TOOLS` input schemas for the
action-selecting discriminant fields (`action`, `method`, `setting`,
`property`, `state`, `info`, `condition`, `type`), as
(tool name, field name, declared enum values). -/
def declaredDiscEnums : List (String × String × List String) :=
  [("browser_history", "action", ["back", "forward", "reload"]),
   ("browser_page_info", "info", ["url", "title"]),
   ("browser_element_action", "action", ["click", "dblclick", "hover", "focus", "tap"]),
   ("browser_input", "action", ["fill", "type"]),
   ("browser_input_action", "action", ["check", "uncheck", "clear", "select_all"]),
   ("browser_scroll", "action", ["scroll", "scroll_into_view"]),
   ("browser_find", "method", ["role", "text", "label", "placeholder", "testId", "title", "altText", "nth"]),
   ("browser_find", "action", ["click", "hover", "fill", "check"]),
   ("browser_get", "property", ["text", "innerText", "innerHtml", "html", "value", "attribute", "boundingBox", "count"]),
   ("browser_check_state", "state", ["visible", "enabled", "checked"]),
   ("browser_storage", "action", ["get", "set", "clear"]),
   ("browser_cookies", "action", ["get", "set"]),
   ("browser_state", "action", ["save", "load"]),
   ("browser_set_context", "setting", ["device", "viewport", "geolocation", "locale", "timezone", "offline", "media", "headers", "credentials"]),
   ("browser_dialog", "action", ["accept", "dismiss"]),
   ("browser_mouse", "action", ["down", "up", "move", "wheel"]),
   ("browser_keyboard_raw", "action", ["down", "up", "shortcut"]),
   ("browser_network", "action", ["route", "unroute", "requests"]),
   ("browser_logs", "type", ["console", "errors"]),
   ("browser_screencast", "action", ["start", "stop"]),
   ("browser_trace", "action", ["start", "stop"]),
   ("browser_recording", "action", ["start", "stop", "restart"]),
   ("browser_har", "action", ["start", "stop"]),
   ("browser_tab", "action", ["list", "new", "switch", "close"]),
   ("browser_window", "action", ["new", "bring_to_front"]),
   ("browser_frame", "action", ["switch", "main"]),
   ("browser_wait_for", "condition", ["url", "load_state", "function", "download"]),
   ("browser_clipboard", "action", ["copy", "paste", "read"])]

/-- One discriminant bijection check row: for tool `tool`, setting field
`discKey` to each declared value (left of a resolution pair) on top of the
`base` argument bag must make the mapper produce a command whose `outKey`
field is the canonical name on the right of the pair. -/
structure DiscRow where
  tool : String
  discKey : String
  outKey : String
  base : Obj
  resolutions : List (String × String)

/-- The canonical resolution of every declared discriminant value, read off
the corresponding `mapMergedToolToCommand` branch.  `outKey` is `"action"`
except for `browser_clipboard`, whose discriminant lands in the command's
`operation` field (its `action` is the constant `"clipboard"`). -/
def discRows : List DiscRow :=
  [⟨"browser_history", "action", "action", [],
     [("back", "back"), ("forward", "forward"), ("reload", "reload")]⟩,
   ⟨"browser_page_info", "info", "action", [],
     [("url", "url"), ("title", "title")]⟩,
   ⟨"browser_element_action", "action", "action", [("selector", JsValue.jstr "@e1")],
     [("click", "click"), ("dblclick", "dblclick"), ("hover", "hover"), ("focus", "focus"), ("tap", "tap")]⟩,
   ⟨"browser_input", "action", "action", [("selector", JsValue.jstr "@e1"), ("value", JsValue.jstr "v")],
     [("fill", "fill"), ("type", "type")]⟩,
   ⟨"browser_input_action", "action", "action", [("selector", JsValue.jstr "@e1")],
     [("check", "check"), ("uncheck", "uncheck"), ("clear", "clear"), ("select_all", "select_all")]⟩,
   ⟨"browser_scroll", "action", "action", [],
     [("scroll", "scroll"), ("scroll_into_view", "scroll_into_view")]⟩,
   ⟨"browser_find", "method", "action", [("value", JsValue.jstr "x")],
     [("role", "find_by_role"), ("text", "find_by_text"), ("label", "find_by_label"),
      ("placeholder", "find_by_placeholder"), ("testId", "find_by_test_id"),
      ("title", "find_by_title"), ("altText", "find_by_alt_text"), ("nth", "find_nth")]⟩,
   ⟨"browser_find", "action", "action", [("method", JsValue.jstr "role"), ("value", JsValue.jstr "x")],
     [("click", "click"), ("hover", "hover"), ("fill", "fill"), ("check", "check")]⟩,
   ⟨"browser_get", "property", "action", [("selector", JsValue.jstr "@e1")],
     [("text", "get_text"), ("innerText", "get_inner_text"), ("innerHtml", "get_inner_html"),
      ("html", "content"), ("value", "get_value"), ("attribute", "get_attribute"),
      ("boundingBox", "bounding_box"), ("count", "count")]⟩,
   ⟨"browser_check_state", "state", "action", [("selector", JsValue.jstr "@e1")],
     [("visible", "is_visible"), ("enabled", "is_enabled"), ("checked", "is_checked")]⟩,
   ⟨"browser_storage", "action", "action", [("type", JsValue.jstr "local")],
     [("get", "get"), ("set", "set"), ("clear", "clear")]⟩,
   ⟨"browser_cookies", "action", "action", [],
     [("get", "get"), ("set", "set")]⟩,
   ⟨"browser_state", "action", "action", [("path", JsValue.jstr "p")],
     [("save", "state_save"), ("load", "state_load")]⟩,
   ⟨"browser_set_context", "setting", "action", [],
     [("device", "set_device"), ("viewport", "set_viewport"), ("geolocation", "set_geolocation"),
      ("locale", "set_locale"), ("timezone", "set_timezone"), ("offline", "set_offline"),
      ("media", "emulate_media"), ("headers", "set_headers"), ("credentials", "set_credentials")]⟩,
   ⟨"browser_dialog", "action", "action", [],
     [("accept", "dialog_accept"), ("dismiss", "dialog_dismiss")]⟩,
   ⟨"browser_mouse", "action", "action", [],
     [("down", "mouse_down"), ("up", "mouse_up"), ("move", "mouse_move"), ("wheel", "wheel")]⟩,
   ⟨"browser_keyboard_raw", "action", "action", [],
     [("down", "key_down"), ("up", "key_up"), ("shortcut", "keyboard")]⟩,
   ⟨"browser_network", "action", "action", [],
     [("route", "route"), ("unroute", "unroute"), ("requests", "requests")]⟩,
   ⟨"browser_logs", "type", "action", [],
     [("console", "console"), ("errors", "errors")]⟩,
   ⟨"browser_screencast", "action", "action", [],
     [("start", "screencast_start"), ("stop", "screencast_stop")]⟩,
   ⟨"browser_trace", "action", "action", [],
     [("start", "trace_start"), ("stop", "trace_stop")]⟩,
   ⟨"browser_recording", "action", "action", [],
     [("start", "recording_start"), ("stop", "recording_stop"), ("restart", "recording_restart")]⟩,
   ⟨"browser_har", "action", "action", [],
     [("start", "har_start"), ("stop", "har_stop")]⟩,
   ⟨"browser_tab", "action", "action", [],
     [("list", "tab_list"), ("new", "tab_new"), ("switch", "tab_switch"), ("close", "tab_close")]⟩,
   ⟨"browser_window", "action", "action", [],
     [("new", "window_new"), ("bring_to_front", "bring_to_front")]⟩,
   ⟨"browser_frame", "action", "action", [],
     [("switch", "frame"), ("main", "main_frame")]⟩,
   ⟨"browser_wait_for", "condition", "action", [],
     [("url", "wait_for_url"), ("load_state", "wait_for_load_state"),
      ("function", "wait_for_function"), ("download", "wait_for_download")]⟩,
   ⟨"browser_clipboard", "action", "operation", [],
     [("copy", "copy"), ("paste", "paste"), ("read", "read")]⟩]

/-- The discriminant values the mapper's source text explicitly tests or
maps per tool and field: the `===` comparisons and the keys of its literal
remapping tables, transcribed from the branches of `mapMergedToolToCommand`
(pass-through branches test no value). -/
def mapperDistinguished : List (String × String × List String) :=
  [("browser_history", "action", []),
   ("browser_page_info", "info", ["url"]),
   ("browser_element_action", "action", []),
   ("browser_input", "action", ["fill"]),
   ("browser_input_action", "action", []),
   ("browser_scroll", "action", ["scroll_into_view"]),
   ("browser_find", "method", ["role", "text", "label", "placeholder", "testId", "title", "altText", "nth"]),
   ("browser_find", "action", ["fill"]),
   ("browser_get", "property", ["text", "innerText", "innerHtml", "html", "value", "attribute", "boundingBox", "count"]),
   ("browser_check_state", "state", ["visible", "enabled", "checked"]),
   ("browser_storage", "action", ["get", "set", "clear"]),
   ("browser_cookies", "action", ["get"]),
   ("browser_state", "action", ["save"]),
   ("browser_set_context", "setting", ["device", "viewport", "geolocation", "locale", "timezone", "offline", "media", "headers", "credentials"]),
   ("browser_dialog", "action", ["accept"]),
   ("browser_mouse", "action", ["down", "up", "move"]),
   ("browser_keyboard_raw", "action", ["shortcut", "down"]),
   ("browser_network", "action", ["requests", "route"]),
   ("browser_logs", "type", []),
   ("browser_screencast", "action", ["start"]),
   ("browser_trace", "action", ["start"]),
   ("browser_recording", "action", ["start", "stop"]),
   ("browser_har", "action", ["start", "stop"]),
   ("browser_tab", "action", []),
   ("browser_window", "action", ["new"]),
   ("browser_frame", "action", ["main"]),
   ("browser_wait_for", "condition", ["url", "load_state", "function", "download"]),
   ("browser_clipboard", "action", [])]

/-- No duplicate entries in a list of strings. -/
def nodupStr : List String → Bool
  | [] => true
  | x :: rest => !(rest.contains x) && nodupStr rest

/-- Every element of `xs` occurs in `ys`. -/
def subsetStr (xs ys : List String) : Bool :=
  xs.all (fun x => ys.contains x)

/-- Setting `discKey := v` over `base` makes the mapper emit a command whose
`outKey` field is the string `expected`. -/
def resolvesTo (tool discKey outKey : String) (base : Obj) (v expected : String) : Bool :=
  match mapMergedToolToCommand tool (setKey base discKey (JsValue.jstr v)) with
  | Except.ok cmd =>
      match getField cmd outKey with
      | some (JsValue.jstr s) => s == expected
      | _ => false
  | Except.error _ => false

/-- A resolution row holds: every declared value resolves as expected, and
distinct declared values resolve to distinct canonical names. -/
def discRowOk (r : DiscRow) : Bool :=
  r.resolutions.all (fun p => resolvesTo r.tool r.discKey r.outKey r.base p.1 p.2) &&
  nodupStr (r.resolutions.map Prod.snd)

/-- The full discriminant bijection check:
1. every declared enum row of the registry is covered by a resolution row
   listing exactly the declared values;
2. every resolution row holds against the mapper (see `discRowOk`);
3. every value the mapper's branches distinguish is a declared enum value. -/
def discBijectionCheck : Bool :=
  declaredDiscEnums.all (fun d =>
    discRows.any (fun r =>
      r.tool == d.1 && r.discKey == d.2.1 && (r.resolutions.map Prod.fst) == d.2.2)) &&
  discRows.all discRowOk &&
  mapperDistinguished.all (fun d =>
    match declaredDiscEnums.find? (fun e => e.1 == d.1 && e.2.1 == d.2.1) with
    | some e => subsetStr d.2.2 e.2.2
    | none => false)

/-- `pattern` is a prefix of `text` (on character lists). -/
def leadsWith : List Char → List Char → Bool
  | [], _ => true
  | _ :: _, [] => false
  | p :: ps, c :: cs => p == c && leadsWith ps cs

/-- `pattern` occurs contiguously somewhere in `text`. -/
def hasSubChars (p : List Char) : List Char → Bool
  | [] => leadsWith p []
  | c :: cs => leadsWith p (c :: cs) || hasSubChars p cs

/-- The string `needle` occurs contiguously in `hay`. -/
def strHasSub (needle hay : String) : Bool :=
  hasSubChars needle.data hay.data

/-! ## The merged MCP server (index.ts)

The server's module state (`let manager: Manager | null`) becomes an explicit
`SrvState`; `BrowserManager` and `IOSManager` instances become `Manager`
values carrying an allocation identity, since browser.js and ios-manager.js
are not part of the sources their launch/close behaviour is modelled from the
spec where noted; every call into the external driver is decided by a
`Driver` oracle, and the launch attempts and close attempts the server makes
are recorded as events. -/

/-- Which manager class an instance belongs to
(`IOSManager` versus `BrowserManager`). -/
inductive MgrKind where
  | ios
  | browser
deriving DecidableEq

/-- Modelled from the spec: a `BrowserManager` / `IOSManager` instance
(browser.js and ios-manager.js are not under the sources).  Per the spec's
session state machine an instance starts unlaunched; `instId` is the
allocation identity a `new BrowserManager()` / `new IOSManager()` creates
afresh, and `launched` is what `isLaunched()` reports. -/
structure Manager where
  kind : MgrKind
  instId : Nat
  launched : Bool
deriving DecidableEq

/-- The module-level mutable state of index.ts: the global `manager`
reference, plus the allocation counter giving fresh instance identities. -/
structure SrvState where
  manager : Option Manager
  nextInst : Nat
deriving DecidableEq

/-- Process start: `let manager: Manager | null = null`. -/
def initialState : SrvState :=
  { manager := none, nextInst := 0 }

/-- Observable interactions of the server with manager instances. -/
inductive Event where
  /-- `m.launch(...)` performed by `ensureBrowserLaunched` (auto-launch). -/
  | autoLaunch (instId : Nat)
  /-- `manager.close().catch(() => {})` during a provider switch. -/
  | closeAttempt (instId : Nat)
  /-- `executeCommand` / `executeIOSCommand` delegating a command. -/
  | driverExec (instId : Nat) (action : String)
deriving DecidableEq

/-- Outcome of the external driver executing one command: it resolves with
`{success: true, data}`, resolves with `{success: false, error}`, or rejects
(throws). -/
inductive DriverOut where
  | ok (data : JsValue)
  | fail (errMsg : String)
  | raise (exnMsg : String)

/-- Oracle for the external automation library: the outcome of a launch
attempt, of a close attempt, and of executing each command. -/
structure Driver where
  launchRes : Except String Unit
  closeRes : Except String Unit
  execRes : Obj → DriverOut

/-- The relevant environment variables (`process.env`). -/
structure Env where
  provider : Option String
  executablePath : Option String

/-- `isIOSProvider`: `(provider ?? process.env.AGENT_BROWSER_PROVIDER) === 'ios'`
(nullish coalescing, so `null` and `undefined` both fall back to the
environment variable). -/
def isIOSProvider (env : Env) (provider : JsValue) : Bool :=
  match provider with
  | JsValue.undef => env.provider == some "ios"
  | JsValue.vnull => env.provider == some "ios"
  | JsValue.jstr s => s == "ios"
  | _ => false

/-- `new IOSManager()` / `new BrowserManager()`: a fresh, unlaunched
instance. -/
def mkManager (shouldUseIOS : Bool) (instId : Nat) : Manager :=
  { kind := if shouldUseIOS then MgrKind.ios else MgrKind.browser,
    instId := instId,
    launched := false }

/-- `getManager(provider?)` of index.ts: create the manager on first use,
keep it when the requested kind matches the current instance's class, and
otherwise close the old instance (the close outcome is swallowed by
`.catch(() => {})`, so the `Driver.closeRes` oracle is not consulted) and
construct a fresh one. -/
def getManager (env : Env) (provider : JsValue) (st : SrvState) :
    Manager × SrvState × List Event :=
  let shouldUseIOS := isIOSProvider env provider
  match st.manager with
  | none =>
      let m := mkManager shouldUseIOS st.nextInst
      (m, { manager := some m, nextInst := st.nextInst + 1 }, [])
  | some m =>
      let isCurrentIOS := m.kind == MgrKind.ios
      if shouldUseIOS != isCurrentIOS then
        let m2 := mkManager shouldUseIOS st.nextInst
        (m2, { manager := some m2, nextInst := st.nextInst + 1 },
         [Event.closeAttempt m.instId])
      else
        (m, st, [])

/-- `ensureBrowserLaunched` of index.ts: get the manager (no provider
argument) and, when it is not launched, perform a launch with
environment-sourced options; a launch failure is a thrown exception.
A successful launch marks the instance launched (modelled from the spec's
`UNINITIALIZED -> LAUNCHED` transition; browser.js is not under the
sources). -/
def ensureBrowserLaunched (env : Env) (d : Driver) (st : SrvState) :
    Except String Unit × SrvState × List Event :=
  match getManager env JsValue.undef st with
  | (m, st1, ev1) =>
    if !m.launched then
      match d.launchRes with
      | Except.ok _ =>
          (Except.ok (),
           { st1 with manager := some { m with launched := true } },
           ev1 ++ [Event.autoLaunch m.instId])
      | Except.error e =>
          (Except.error e, st1, ev1 ++ [Event.autoLaunch m.instId])
    else
      (Except.ok (), st1, ev1)

/-- Modelled from the spec: the driver-side effect of a successfully executed
command on the session's launch state (actions.js is not under the sources):
a successful `launch` moves the instance to launched, a successful `close`
moves it out of launched (the spec's `CLOSED` state). -/
def applyCmdEffect (m : Manager) (act : JsValue) : Manager :=
  if isStrVal act "launch" then { m with launched := true }
  else if isStrVal act "close" then { m with launched := false }
  else m

/-- One item of a tool response's `content` array. -/
structure ContentItem where
  itemType : String
  text : String
deriving DecidableEq

/-- The response shape `execute` resolves with. -/
structure Response where
  content : List ContentItem
deriving DecidableEq

/-- The uniform failure shape `{content: [{type: 'text', text: 'Error: <m>'}]}`. -/
def errorResponse (msg : String) : Response :=
  { content := [{ itemType := "text", text := "Error: " ++ msg }] }

/-- Member access `v.k`, which throws on `null`/`undefined` and yields
`undefined` on primitives without the property. -/
def jsMember (v : JsValue) (k : String) : Except String JsValue :=
  match v with
  | JsValue.undef =>
      Except.error ("Cannot read properties of undefined (reading " ++ k ++ ")")
  | JsValue.vnull =>
      Except.error ("Cannot read properties of null (reading " ++ k ++ ")")
  | JsValue.jobj fields => Except.ok (jsIndex fields k)
  | _ => Except.ok JsValue.undef

/-- A call `v.substring(0, n)`, which throws unless `v` is a string. -/
def jsSubstringCall (v : JsValue) (n : Nat) : Except String String :=
  match v with
  | JsValue.jstr s => Except.ok (s.take n)
  | _ => Except.error "substring is not a function"

/-- Escape one character for a JSON string literal. -/
def jsonEscapeChar (c : Char) : String :=
  if c = '\"' then "\\\""
  else if c = '\\' then "\\\\"
  else if c = '\n' then "\\n"
  else if c = '\t' then "\\t"
  else if c = '\r' then "\\r"
  else String.singleton c

/-- A JSON string literal. -/
def jsonQuote (s : String) : String :=
  "\"" ++ String.join (s.data.map jsonEscapeChar) ++ "\""

/-- `n` levels of two-space indentation. -/
def jsonIndent (n : Nat) : String :=
  String.join (List.replicate n "  ")

mutual

/-- `JSON.stringify(v, null, 2)` at nesting depth `ind`: arrays and objects
print one entry per line with two-space indentation, `undefined`-valued
object fields are dropped, `undefined` array elements print as `null`.
`JSON.stringify` applied to `undefined` itself yields the value `undefined`;
that non-string outcome is represented by the text `"undefined"`. -/
def jsonStringify (ind : Nat) : JsValue → String
  | JsValue.undef => "undefined"
  | JsValue.vnull => "null"
  | JsValue.jbool b => if b then "true" else "false"
  | JsValue.jnum n => toString n
  | JsValue.jstr s => jsonQuote s
  | JsValue.jarr xs =>
      match jsonArrayItems ind xs with
      | [] => "[]"
      | items =>
          "[\n" ++ String.intercalate ",\n" (items.map (fun t => jsonIndent (ind + 1) ++ t)) ++
          "\n" ++ jsonIndent ind ++ "]"
  | JsValue.jobj fields =>
      match jsonObjectItems ind fields with
      | [] => "\x7b\x7d"
      | items =>
          "\x7b\n" ++ String.intercalate ",\n" (items.map (fun t => jsonIndent (ind + 1) ++ t)) ++
          "\n" ++ jsonIndent ind ++ "\x7d"

/-- Stringified elements of a JSON array (an `undefined` element prints as
`null`). -/
def jsonArrayItems (ind : Nat) : List JsValue → List String
  | [] => []
  | JsValue.undef :: rest => "null" :: jsonArrayItems ind rest
  | v :: rest => jsonStringify (ind + 1) v :: jsonArrayItems ind rest

/-- Stringified `"key": value` entries of a JSON object (`undefined`-valued
fields are dropped). -/
def jsonObjectItems (ind : Nat) : List (String × JsValue) → List String
  | [] => []
  | (_, JsValue.undef) :: rest => jsonObjectItems ind rest
  | (k, v) :: rest => (jsonQuote k ++ ": " ++ jsonStringify (ind + 1) v) :: jsonObjectItems ind rest

end

/-- Success-path response normalization of `execute` (index.ts lines
217-269): `snapshot` returns the raw text, `screenshot` with a base64
payload returns a preview plus the full payload, `content` returns the HTML,
everything else is JSON-stringified with indent 2.  Member accesses that
would throw surface as `Except.error` (caught by `execute`'s catch). -/
def normalizeSuccess (act : JsValue) (data : JsValue) : Except String Response := do
  if isStrVal act "snapshot" then
    let snapText := (match data with
                     | JsValue.jstr s => s
                     | _ => jsonStringify 0 data)
    return { content := [{ itemType := "text", text := snapText }] }
  if isStrVal act "screenshot" then
    let b64 ← jsMember data "base64"
    if jsTruthy b64 then
      let pre ← jsSubstringCall b64 50
      let pathv ← jsMember data "path"
      let shotText := "Screenshot captured (base64: " ++ pre ++ "...)" ++
        (if jsTruthy pathv then " saved to " ++ jsToString pathv else "")
      return { content := [{ itemType := "text", text := shotText },
                           { itemType := "text", text := "Full base64 data: " ++ jsToString b64 }] }
  if isStrVal act "content" then
    let htmlv ← jsMember data "html"
    let htmlText := if jsTruthy htmlv then jsToString htmlv else jsToString data
    return { content := [{ itemType := "text", text := htmlText }] }
  return { content := [{ itemType := "text", text := jsonStringify 0 data }] }

/-- The `try`-block of `execute` (index.ts lines 201-279): auto-launch unless
the command's action is launch-exempt, delegate to the driver, then
normalize; driver rejections and internal throws are `Except.error`. -/
def executeTry (env : Env) (d : Driver) (command : Obj) (m : Manager) (st : SrvState) :
    Except String Response × SrvState × List Event :=
  match (if (!m.launched &&
        !(isStrVal (jsIndex command "action") "launch" ||
          isStrVal (jsIndex command "action") "close" ||
          isStrVal (jsIndex command "action") "device_list" ||
          isStrVal (jsIndex command "action") "video_start" ||
          isStrVal (jsIndex command "action") "video_stop")) then
      ensureBrowserLaunched env d st
    else (Except.ok (), st, [])) with
  | (Except.error e, st1, ev1) => (Except.error e, st1, ev1)
  | (Except.ok _, st1, ev1) =>
    match d.execRes command with
    | DriverOut.raise e =>
        (Except.error e, st1,
         ev1 ++ [Event.driverExec (st1.manager.getD m).instId
                   (jsToString (jsIndex command "action"))])
    | DriverOut.fail e =>
        (Except.ok (errorResponse e), st1,
         ev1 ++ [Event.driverExec (st1.manager.getD m).instId
                   (jsToString (jsIndex command "action"))])
    | DriverOut.ok data =>
        match normalizeSuccess (jsIndex command "action") data with
        | Except.ok resp =>
            (Except.ok resp,
             { st1 with
                 manager := some (applyCmdEffect (st1.manager.getD m) (jsIndex command "action")) },
             ev1 ++ [Event.driverExec (st1.manager.getD m).instId
                       (jsToString (jsIndex command "action"))])
        | Except.error e =>
            (Except.error e,
             { st1 with
                 manager := some (applyCmdEffect (st1.manager.getD m) (jsIndex command "action")) },
             ev1 ++ [Event.driverExec (st1.manager.getD m).instId
                       (jsToString (jsIndex command "action"))])

/-- `execute` of index.ts (lines 197-290): resolve the manager (using the
command's own provider field when the action is `launch`, a step outside the
`try`), run the try-block, and convert any caught error to the uniform
`Error: <message>` response. -/
def execute (env : Env) (d : Driver) (command : Obj) (st : SrvState) :
    Response × SrvState × List Event :=
  match getManager env
      (if isStrVal (jsIndex command "action") "launch" then jsIndex command "provider"
       else JsValue.undef) st with
  | (m, st1, ev1) =>
    match executeTry env d command m st1 with
    | (Except.ok resp, st2, ev2) => (resp, st2, ev1 ++ ev2)
    | (Except.error e, st2, ev2) => (errorResponse e, st2, ev1 ++ ev2)

/-- `handleToolCall` of index.ts (lines 306-324): map the merged call, attach
the generated id, auto-launch unless the tool name is `browser_launch`,
`browser_close` or `browser_ios_device_list`, then execute.  A mapping error
or a launch failure is a thrown exception (`Except.error`), left for the
request boundary. -/
def handleToolCall (env : Env) (d : Driver) (name : String) (args : Obj)
    (genId : String) (st : SrvState) :
    Except String Response × SrvState × List Event :=
  match mapMergedToolToCommand name args with
  | Except.error e => (Except.error e, st, [])
  | Except.ok mappedCmd =>
    if name ≠ "browser_launch" && name ≠ "browser_close" && name ≠ "browser_ios_device_list" then
      match ensureBrowserLaunched env d st with
      | (Except.error e, st1, ev1) => (Except.error e, st1, ev1)
      | (Except.ok _, st1, ev1) =>
          match execute env d (setKey (objSpread [] mappedCmd) "id" (JsValue.jstr genId)) st1 with
          | (resp, st2, ev2) => (Except.ok resp, st2, ev1 ++ ev2)
    else
      match execute env d (setKey (objSpread [] mappedCmd) "id" (JsValue.jstr genId)) st with
      | (resp, st2, ev2) => (Except.ok resp, st2, ev2)

/-- A response at the tool-call request boundary, which may carry
`isError: true` (`isError := false` represents the absent field of a
successfully forwarded response). -/
structure BoundaryResponse where
  content : List ContentItem
  isError : Bool
deriving DecidableEq

/-- The `CallToolRequestSchema` handler of `main` (index.ts lines 351-367):
forward `handleToolCall`, catching any thrown error into
`{content: [{type: 'text', text: 'Error: <message>'}], isError: true}`. -/
def handleRequest (env : Env) (d : Driver) (name : String) (args : Obj)
    (genId : String) (st : SrvState) :
    BoundaryResponse × SrvState × List Event :=
  match handleToolCall env d name args genId st with
  | (Except.ok resp, st1, ev1) =>
      ({ content := resp.content, isError := false }, st1, ev1)
  | (Except.error e, st1, ev1) =>
      ({ content := [{ itemType := "text", text := "Error: " ++ e }], isError := true },
       st1, ev1)

/-- The unmerged surface's `browser_emulate_media` command construction
(dist index.js, `handleToolCall` lines 2443-2450): the sentinel string
`'null'` is converted to a literal `null` before dispatch. -/
def unmergedEmulateMediaCommand (args : Obj) (genId : String) : Obj :=
  [("id", JsValue.jstr genId),
   ("action", JsValue.jstr "emulatemedia"),
   ("media", if isStrVal (jsIndex args "media") "null" then JsValue.vnull
             else jsIndex args "media"),
   ("colorScheme", if isStrVal (jsIndex args "colorScheme") "null" then JsValue.vnull
                   else jsIndex args "colorScheme"),
   ("reducedMotion", if isStrVal (jsIndex args "reducedMotion") "null" then JsValue.vnull
                     else jsIndex args "reducedMotion")]

/-! ## Notions used by the claim statements -/

/-- The own-property keys of an object, in order. -/
def objKeys (o : Obj) : List String :=
  o.map Prod.fst

/-- Two objects are structurally equal when the same keys are present with
the same values (JavaScript structural equality of argument bags, which does
not depend on insertion order). -/
def objEquiv (a b : Obj) : Prop :=
  ∀ k, getField a k = getField b k

/-- Structural equality of mapper results: same error, or structurally equal
commands. -/
def mapResultEquiv : Except String Obj → Except String Obj → Prop
  | Except.ok c1, Except.ok c2 => objEquiv c1 c2
  | Except.error e1, Except.error e2 => e1 = e2
  | _, _ => False

/-- The `action` field of a mapper result. -/
def actionOf (r : Except String Obj) : Option JsValue :=
  match r with
  | Except.ok cmd => getField cmd "action"
  | Except.error _ => none

/-- The merged tools whose mapper branch spreads the whole argument bag
after the action tag (`{ action: ..., ...args }`). -/
def spreadMergedTools : List String :=
  ["browser_launch", "browser_navigate", "browser_snapshot", "browser_screenshot",
   "browser_close", "browser_add_script", "browser_add_style"]

/-- The canonical action tag of each spread-mapped tool. -/
def spreadCanonicalAction : List (String × String) :=
  [("browser_launch", "launch"), ("browser_navigate", "navigate"),
   ("browser_snapshot", "snapshot"), ("browser_screenshot", "screenshot"),
   ("browser_close", "close"), ("browser_add_script", "add_script"),
   ("browser_add_style", "add_style")]

/-- For each non-spread merged tool, the argument-bag keys its mapper branch
consults when producing the command's `action` field (empty for tools with a
constant canonical action). -/
def actionDeterminingKeys : List (String × List String) :=
  [("browser_history", ["action"]),
   ("browser_page_info", ["info"]),
   ("browser_element_action", ["action"]),
   ("browser_input", ["action"]),
   ("browser_input_action", ["action"]),
   ("browser_select", []),
   ("browser_press", []),
   ("browser_scroll", ["action"]),
   ("browser_find", ["method", "action"]),
   ("browser_get", ["property"]),
   ("browser_check_state", ["state"]),
   ("browser_storage", ["action"]),
   ("browser_cookies", ["action"]),
   ("browser_state", ["action"]),
   ("browser_set_context", ["setting"]),
   ("browser_dialog", ["action"]),
   ("browser_mouse", ["action"]),
   ("browser_keyboard_raw", ["action"]),
   ("browser_network", ["action"]),
   ("browser_response_body", []),
   ("browser_evaluate", []),
   ("browser_set_content", []),
   ("browser_add_init_script", []),
   ("browser_dispatch_event", []),
   ("browser_logs", ["type"]),
   ("browser_highlight", []),
   ("browser_styles", []),
   ("browser_screencast", ["action"]),
   ("browser_trace", ["action"]),
   ("browser_recording", ["action"]),
   ("browser_har", ["action"]),
   ("browser_tab", ["action"]),
   ("browser_window", ["action"]),
   ("browser_frame", ["action"]),
   ("browser_pdf", []),
   ("browser_download", []),
   ("browser_wait", []),
   ("browser_wait_for", ["condition"]),
   ("browser_clipboard", []),
   ("browser_upload", []),
   ("browser_drag", []),
   ("browser_multiselect", []),
   ("browser_set_value", []),
   ("browser_ios_device_list", []),
   ("browser_ios_swipe", [])]

/-- The declared enum of `browser_find`'s `method` field. -/
def findMethodEnum : List String :=
  ["role", "text", "label", "placeholder", "testId", "title", "altText", "nth"]

/-- Schema-conformance of the one tool whose mapper branch writes a
computed argument-dependent key: for `browser_find` the `method` value must
be one of its declared enum values (for every other tool no constraint). -/
def findMethodOk (name : String) (args : Obj) : Prop :=
  name = "browser_find" → ∃ s ∈ findMethodEnum, jsIndex args "method" = JsValue.jstr s

/-- For each merged tool, its declared optional schema fields that the
mapper forwards only when present.  Not listed (because their branch copies
them unconditionally, so omission yields the key present with value
`undefined`): `browser_find`'s `selector`/`index` (nth), `browser_get`'s
`attribute`, `browser_cookies`' `cookies` (set), `browser_set_context`'s
per-setting fields other than `accuracy` and the media-emulation trio,
`browser_keyboard_raw`'s `key`/`keys`, `browser_network`'s `url`,
`browser_logs`' `clear`, `browser_trace`'s and `browser_har`'s `path`. -/
def omissionSafeTable : List (String × List String) :=
  [("browser_launch", ["headless", "browser", "cdpPort", "cdpUrl", "executablePath",
                       "args", "userAgent", "provider", "ignoreHTTPSErrors", "profile",
                       "storageState", "allowFileAccess"]),
   ("browser_navigate", ["waitUntil", "headers"]),
   ("browser_snapshot", ["interactiveOnly", "cursor", "compact", "depth", "selector"]),
   ("browser_screenshot", ["path", "fullPage", "selector"]),
   ("browser_add_script", ["content", "url"]),
   ("browser_add_style", ["content", "url"]),
   ("browser_element_action", ["button", "clickCount"]),
   ("browser_input", ["delay"]),
   ("browser_select", ["multiSelect"]),
   ("browser_press", ["selector"]),
   ("browser_scroll", ["direction", "amount", "x", "y"]),
   ("browser_find", ["exact", "fillValue"]),
   ("browser_storage", ["key", "value"]),
   ("browser_cookies", ["urls"]),
   ("browser_set_context", ["accuracy"]),
   ("browser_dialog", ["promptText"]),
   ("browser_mouse", ["button", "x", "y", "deltaX", "deltaY", "selector"]),
   ("browser_network", ["filter", "clear", "abort", "response"]),
   ("browser_response_body", ["timeout"]),
   ("browser_evaluate", ["args"]),
   ("browser_dispatch_event", ["eventInit"]),
   ("browser_screencast", ["format", "quality", "maxWidth", "maxHeight"]),
   ("browser_trace", ["screenshots", "snapshots"]),
   ("browser_recording", ["path", "url"]),
   ("browser_tab", ["index", "url"]),
   ("browser_window", ["viewportWidth", "viewportHeight"]),
   ("browser_frame", ["selector", "name", "url"]),
   ("browser_pdf", ["format"]),
   ("browser_wait", ["selector", "timeout", "state"]),
   ("browser_wait_for", ["url", "state", "expression", "path", "timeout"]),
   ("browser_clipboard", ["text"]),
   ("browser_ios_swipe", ["distance"])]

/-- Check that for every spread-mapped tool, an argument bag carrying an
`action` key makes the produced command's `action` equal the caller-supplied
value instead of the tool's canonical action tag. -/
def spreadHijackCheck : Bool :=
  spreadCanonicalAction.all (fun p =>
    match mapMergedToolToCommand p.1 [("action", JsValue.jstr "hijacked")] with
    | Except.ok cmd =>
        (match getField cmd "action" with
         | some (JsValue.jstr s) => s == "hijacked" && !(s == p.2)
         | _ => false)
    | Except.error _ => false)

/-- Allocation well-formedness of the server state: any held instance was
allocated below the counter (so fresh instances are never old ones). -/
def stWf (st : SrvState) : Prop :=
  ∀ m, st.manager = some m → m.instId < st.nextInst

/-- A driver for concrete runs: every operation succeeds, command execution
resolving with an empty object payload. -/
def okDriver : Driver :=
  { launchRes := Except.ok ()
    closeRes := Except.ok ()
    execRes := fun _ => DriverOut.ok (JsValue.jobj []) }

/-- A driver whose command execution reports failure with the given
message. -/
def failingDriver (msg : String) : Driver :=
  { okDriver with execRes := fun _ => DriverOut.fail msg }

/-- An environment with no variables set. -/
def emptyEnv : Env :=
  { provider := none, executablePath := none }

/-! ## Lemmas about the object embedding -/

theorem getField_cons (k1 : String) (v : JsValue) (rest : Obj) (k : String) :
    getField ((k1, v) :: rest) k = if k1 = k then some v else getField rest k := rfl

theorem getField_nil_eq (k : String) : getField [] k = none := rfl

/-- `getField` after `setKey`, as an if-split on the key. -/
theorem getField_setKey (o : Obj) (k : String) (v : JsValue) (k1 : String) :
    getField (setKey o k v) k1 = if k = k1 then some v else getField o k1 := by
  induction o with
  | nil => simp [setKey, getField]
  | cons hd tl ih =>
    obtain ⟨k0, v0⟩ := hd
    by_cases h0 : k0 = k
    · subst h0
      simp only [setKey, if_pos rfl, getField]
      by_cases h1 : k0 = k1
      · subst h1; simp
      · simp [h1]
    · simp only [setKey, if_neg h0, getField]
      by_cases h1 : k0 = k1
      · subst h1
        have hne : ¬ k = k0 := fun h => h0 h.symm
        simp [hne]
      · simp [h1, ih]

/-- `getField` distributes over `if`. -/
theorem getField_ite (c : Prop) [Decidable c] (a b : Obj) (k : String) :
    getField (if c then a else b) k = if c then getField a k else getField b k := by
  by_cases h : c <;> simp [h]

/-- An absent key fails the `!== undefined` guard. -/
theorem jsDefined_eq_false {o : Obj} {k : String} (h : getField o k = none) :
    jsDefined o k = false := by
  simp [jsDefined, jsIndex, h]

/-- A key is absent exactly when it is not among the object's keys. -/
theorem getField_eq_none_iff (o : Obj) (k : String) :
    getField o k = none ↔ k ∉ objKeys o := by
  induction o with
  | nil => simp [getField, objKeys]
  | cons hd tl ih =>
    obtain ⟨k0, v0⟩ := hd
    by_cases h0 : k0 = k
    · subst h0; simp [getField, objKeys]
    · have hne : ¬ k = k0 := fun hh => h0 hh.symm
      simp only [getField, if_neg h0, objKeys, List.map_cons, List.mem_cons]
      rw [ih]
      simp [objKeys, hne]

/-- Spreading an object that lacks a key does not affect that key. -/
theorem getField_objSpread_of_not_mem (l : Obj) (base : Obj) (k : String)
    (h : k ∉ objKeys l) : getField (objSpread base l) k = getField base k := by
  induction l generalizing base with
  | nil => rfl
  | cons hd tl ih =>
    obtain ⟨k0, v0⟩ := hd
    simp only [objKeys, List.map_cons, List.mem_cons, not_or] at h
    have hne : ¬ k0 = k := fun hh => h.1 hh.symm
    have step : objSpread base ((k0, v0) :: tl) = objSpread (setKey base k0 v0) tl := rfl
    rw [step, ih (setKey base k0 v0) (by simpa [objKeys] using h.2), getField_setKey]
    simp [hne]

/-- `getField` after a spread of a duplicate-free object: bindings of the
spread object win, all else falls through to the base. -/
theorem getField_objSpread (l : Obj) (base : Obj) (k : String)
    (h : (objKeys l).Nodup) :
    getField (objSpread base l) k = (getField l k).elim (getField base k) some := by
  induction l generalizing base with
  | nil => simp [objSpread, getField]
  | cons hd tl ih =>
    obtain ⟨k0, v0⟩ := hd
    simp only [objKeys, List.map_cons, List.nodup_cons] at h
    have step : objSpread base ((k0, v0) :: tl) = objSpread (setKey base k0 v0) tl := rfl
    rw [step, ih (setKey base k0 v0) h.2]
    by_cases hk : k0 = k
    · subst hk
      have habs : getField tl k0 = none :=
        (getField_eq_none_iff tl k0).2 (by simpa [objKeys] using h.1)
      simp [habs, getField, getField_setKey]
    · rw [getField_setKey]
      simp [getField, if_neg hk]

/-- Spreading structurally equal duplicate-free objects over the same base
yields structurally equal objects. -/
theorem objSpread_congr (base : Obj) {a b : Obj}
    (ha : (objKeys a).Nodup) (hb : (objKeys b).Nodup) (h : objEquiv a b) :
    objEquiv (objSpread base a) (objSpread base b) := by
  intro k
  rw [getField_objSpread a base k ha, getField_objSpread b base k hb, h k]

/-! ## Claim theorems -/

/-- C9: every enum value declared on a discriminant field of a merged tool
resolves through the corresponding mapper branch to a canonical command
(distinct declared values to distinct canonical names, none defaulting to
`undefined`), and every discriminant value the mapper's branches distinguish
is declared in the tool's schema enum — `discBijectionCheck` bundles the
three directions over the transcribed registry and mapper tables. -/
theorem merged_disc_bijection : discBijectionCheck = true := rfl

/-- C3 counterexample: calling the merged context tool with
`{setting: "media", colorScheme: "null"}` produces a command whose
`colorScheme` is the STRING `"null"`, which is not the literal `null` the
claim asserts. -/
theorem set_context_media_sentinel_is_string :
    mapMergedToolToCommand "browser_set_context"
      [("setting", JsValue.jstr "media"), ("colorScheme", JsValue.jstr "null")] =
      Except.ok [("action", JsValue.jstr "emulate_media"), ("colorScheme", JsValue.jstr "null")] ∧
    (some (JsValue.jstr "null") ≠ some JsValue.vnull) :=
  ⟨rfl, fun h => JsValue.noConfusion (Option.some.inj h)⟩

/-- C3 amended: the merged context tool forwards `colorScheme` verbatim
(every provided string arrives unchanged, in particular the sentinel string
`"null"`), which is distinct from omitting the field (absent from the
command); the sentinel-to-literal-`null` conversion exists only in the
unmerged surface's `browser_emulate_media` handler. -/
theorem set_context_media_sentinel_forwarded_verbatim :
    (∀ s : String,
      mapMergedToolToCommand "browser_set_context"
        [("setting", JsValue.jstr "media"), ("colorScheme", JsValue.jstr s)] =
        Except.ok [("action", JsValue.jstr "emulate_media"), ("colorScheme", JsValue.jstr s)]) ∧
    mapMergedToolToCommand "browser_set_context" [("setting", JsValue.jstr "media")] =
      Except.ok [("action", JsValue.jstr "emulate_media")] ∧
    getField (unmergedEmulateMediaCommand [("colorScheme", JsValue.jstr "null")] "id0")
      "colorScheme" = some JsValue.vnull :=
  ⟨fun _ => rfl, rfl, rfl⟩

/-- C5 counterexample: calling `browser_logs` without its optional `clear`
field produces a command on which `clear` is PRESENT with value `undefined`
(the branch copies `args.clear` unconditionally), falsifying the claim that
every omitted optional field is absent from the command. -/
theorem logs_omitted_clear_still_present :
    mapMergedToolToCommand "browser_logs" [("type", JsValue.jstr "console")] =
      Except.ok [("action", JsValue.jstr "console"), ("clear", JsValue.undef)] ∧
    getField [("action", JsValue.jstr "console"), ("clear", JsValue.undef)] "clear" =
      some JsValue.undef ∧
    getField [("type", JsValue.jstr "console")] "clear" = none :=
  ⟨rfl, rfl, rfl⟩

/-- C6 counterexample: an unknown tool name yields `isError: true` with text
`Error: Unknown merged tool: <name>`, which does NOT contain the substring
`"Unknown tool"` the claim requires (the words are separated by `merged`);
the name is still never mapped to a command. -/
theorem unknown_tool_response_text :
    (handleRequest emptyEnv okDriver "browser_does_not_exist" [] "id0" initialState).1 =
      { content := [{ itemType := "text",
                      text := "Error: Unknown merged tool: browser_does_not_exist" }],
        isError := true } ∧
    strHasSub "Unknown tool" "Error: Unknown merged tool: browser_does_not_exist" = false ∧
    mapMergedToolToCommand "browser_does_not_exist" [] =
      Except.error "Unknown merged tool: browser_does_not_exist" :=
  ⟨rfl, rfl, rfl⟩

/-- C2: the merged `handleToolCall` auto-launches for every tool name other
than `browser_launch`, `browser_close` and `browser_ios_device_list` — in
particular `browser_recording` start/stop on an unlaunched server DOES
trigger an implicit launch (first two conjuncts), while the three exempted
names do not (last three conjuncts).  The `execute`-level exemption list
checks the stale action names `video_start`/`video_stop`, which no merged
tool produces (recording maps to `recording_start`/`recording_stop`). -/
theorem recording_start_triggers_auto_launch :
    (handleToolCall emptyEnv okDriver "browser_recording"
        [("action", JsValue.jstr "start")] "id0" initialState).2.2 =
      [Event.autoLaunch 0, Event.driverExec 0 "recording_start"] ∧
    (handleToolCall emptyEnv okDriver "browser_recording"
        [("action", JsValue.jstr "stop")] "id1" initialState).2.2 =
      [Event.autoLaunch 0, Event.driverExec 0 "recording_stop"] ∧
    (handleToolCall emptyEnv okDriver "browser_launch" [] "id2" initialState).2.2 =
      [Event.driverExec 0 "launch"] ∧
    (handleToolCall emptyEnv okDriver "browser_close" [] "id3" initialState).2.2 =
      [Event.driverExec 0 "close"] ∧
    (handleToolCall emptyEnv okDriver "browser_ios_device_list" [] "id4" initialState).2.2 =
      [Event.driverExec 0 "device_list"] :=
  ⟨rfl, rfl, rfl, rfl, rfl⟩

/-- C7: after the merged `browser_close` is handled, the module-level
manager reference STILL points at the closed instance (instance 0, now
unlaunched), and a subsequent `browser_navigate` re-launches that same
instance (auto-launch on instance 0, no fresh allocation: the counter stays
at 1) instead of constructing a new one — the unmerged surface instead
clears the reference (`browser = null`) after close. -/
theorem close_leaves_manager_reference :
    (let st1 := (handleRequest emptyEnv okDriver "browser_launch" [] "i1" initialState).2.1
     let st2 := (handleRequest emptyEnv okDriver "browser_close" [] "i2" st1).2.1
     let r3 := handleRequest emptyEnv okDriver "browser_navigate"
       [("url", JsValue.jstr "https://example.com")] "i3" st2
     st2.manager = some { kind := MgrKind.browser, instId := 0, launched := false } ∧
     r3.2.2 = [Event.autoLaunch 0, Event.driverExec 0 "navigate"] ∧
     r3.2.1 = { manager := some { kind := MgrKind.browser, instId := 0, launched := true },
                nextInst := 1 }) :=
  ⟨rfl, rfl, rfl⟩

/-- C4 counterexample: with a session created for provider `"browserbase"`,
a call requesting the distinct provider `"kernel"` neither tears the old
session down nor constructs a fresh one — `getManager` returns the very same
instance with no close attempt, because only the ios/non-ios distinction is
consulted. -/
theorem provider_switch_counterexample :
    (let r1 := getManager emptyEnv (JsValue.jstr "browserbase") initialState
     let r2 := getManager emptyEnv (JsValue.jstr "kernel") r1.2.1
     r2.1 = r1.1 ∧ r2.2.1 = r1.2.1 ∧ r2.2.2 = []) :=
  ⟨rfl, rfl, rfl⟩

set_option maxHeartbeats 2000000 in
/-- A name outside the advertised registry falls through every mapper case
to the `default` throw. -/
theorem mapper_unknown (name : String) (args : Obj) (h : name ∉ mergedToolNames) :
    mapMergedToolToCommand name args = Except.error ("Unknown merged tool: " ++ name) := by
  unfold mapMergedToolToCommand
  split
  all_goals first
    | rfl
    | (exfalso; apply h; simp [mergedToolNames])

/-- C6 amended: a tool name outside the advertised registry makes the
request boundary answer `isError: true` with text
`Error: Unknown merged tool: <name>` (so the text contains
`"Unknown merged tool"`, not the claimed exact substring `"Unknown tool"`),
leaving the server state untouched, and the mapper rejects the name with an
error instead of defaulting it to any command. -/
theorem unknown_tool_uniform_error (env : Env) (d : Driver) (name : String)
    (args : Obj) (genId : String) (st : SrvState) (h : name ∉ mergedToolNames) :
    handleRequest env d name args genId st =
      ({ content := [{ itemType := "text",
                       text := "Error: " ++ ("Unknown merged tool: " ++ name) }],
         isError := true }, st, []) ∧
    mapMergedToolToCommand name args = Except.error ("Unknown merged tool: " ++ name) := by
  have hm := mapper_unknown name args h
  exact ⟨by simp [handleRequest, handleToolCall, hm], hm⟩

/-- Witness for C6 amended at the concrete unknown name `"not_a_tool"`. -/
theorem unknown_tool_uniform_error_witness :
    handleRequest emptyEnv okDriver "not_a_tool" [] "g" initialState =
      ({ content := [{ itemType := "text",
                       text := "Error: " ++ ("Unknown merged tool: " ++ "not_a_tool") }],
         isError := true }, initialState, []) ∧
    mapMergedToolToCommand "not_a_tool" [] =
      Except.error ("Unknown merged tool: " ++ "not_a_tool") :=
  unknown_tool_uniform_error emptyEnv okDriver "not_a_tool" [] "g" initialState (by decide)

/-- C8: the mapper is a pure function and deterministic up to structural
equality — structurally equal argument bags (same keys mapped to the same
values, insertion order irrelevant, no duplicate keys as in JavaScript
objects) produce structurally identical commands or identical errors, for
every tool name; no per-call identifier is involved (the dispatcher adds
`id` afterwards in `handleToolCall`). -/
theorem mapper_deterministic (name : String) (a b : Obj)
    (hna : (objKeys a).Nodup) (hnb : (objKeys b).Nodup) (heq : objEquiv a b) :
    mapResultEquiv (mapMergedToolToCommand name a) (mapMergedToolToCommand name b) := by
  have hj : jsIndex a = jsIndex b := by
    funext k; simp [jsIndex, heq k]
  have hd : jsDefined a = jsDefined b := by
    funext k; simp [jsDefined, hj]
  by_cases hm : name ∈ mergedToolNames
  · simp only [mergedToolNames, List.mem_cons, List.not_mem_nil, or_false] at hm
    rcases hm with rfl|rfl|rfl|rfl|rfl|rfl|rfl|rfl|rfl|rfl|rfl|rfl|rfl|
      rfl|rfl|rfl|rfl|rfl|rfl|rfl|rfl|rfl|rfl|rfl|rfl|rfl|rfl|rfl|rfl|rfl|rfl|rfl|rfl|
      rfl|rfl|rfl|rfl|rfl|rfl|rfl|rfl|rfl|rfl|rfl|rfl|rfl|rfl|rfl|rfl|rfl|rfl|rfl
    all_goals first
      | exact objSpread_congr _ hna hnb heq
      | (show objEquiv _ _
         simp only [caseHistory, casePageInfo, caseElementAction, caseInput, caseInputAction,
           casePress, caseScroll, caseFind, caseGet, caseCheckState, caseStorage, caseCookies,
           caseState, caseSetContext, caseDialog, caseMouse, caseKeyboardRaw, caseNetwork,
           caseResponseBody, caseEvaluate, caseSetContent, caseAddInitScript, caseDispatchEvent,
           caseLogs, caseHighlight, caseStyles, caseScreencast, caseTrace, caseRecording,
           caseHar, caseTab, caseWindow, caseFrame, casePdf, caseDownload, caseWait,
           caseWaitFor, caseClipboard, caseUpload, caseDrag, caseSelect, caseMultiselect,
           caseSetValue, caseIosDeviceList, caseIosSwipe, hj, hd]
         exact fun k => rfl)
  · rw [mapper_unknown name a hm, mapper_unknown name b hm]
    exact rfl

/-- Witness for C8 at a concrete call: two structurally equal `browser_press`
bags given in different insertion order map to structurally identical
commands. -/
theorem mapper_deterministic_witness :
    mapResultEquiv
      (mapMergedToolToCommand "browser_press"
        [("key", JsValue.jstr "Enter"), ("selector", JsValue.jstr "#a")])
      (mapMergedToolToCommand "browser_press"
        [("selector", JsValue.jstr "#a"), ("key", JsValue.jstr "Enter")]) :=
  mapper_deterministic "browser_press" _ _ (by decide) (by decide)
    (by
      intro k
      by_cases h1 : "key" = k
      · subst h1; rfl
      · by_cases h2 : "selector" = k
        · subst h2; rfl
        · simp [getField, h1, h2])

/-- C4 amended: with a session held, `getManager` tears down and replaces it
exactly when the requested provider resolves to iOS (via `isIOSProvider`,
which falls back to the environment variable when no provider is requested)
differently from the current instance's class; otherwise — in particular for
two distinct non-iOS providers — the existing instance is returned unchanged
with no teardown.  On a switch, the old instance's close is attempted with
its outcome structurally swallowed (`getManager` does not consult the close
oracle), and the replacement is a fresh instance, never the torn-down one. -/
theorem provider_switch_iff_kind_changes (env : Env) (p : JsValue) (st : SrvState)
    (m : Manager) (hm : st.manager = some m) (hwf : stWf st) :
    (isIOSProvider env p = (m.kind == MgrKind.ios) →
      getManager env p st = (m, st, [])) ∧
    (isIOSProvider env p ≠ (m.kind == MgrKind.ios) →
      getManager env p st =
        (mkManager (isIOSProvider env p) st.nextInst,
         { manager := some (mkManager (isIOSProvider env p) st.nextInst),
           nextInst := st.nextInst + 1 },
         [Event.closeAttempt m.instId]) ∧
      (mkManager (isIOSProvider env p) st.nextInst).instId ≠ m.instId) := by
  constructor
  · intro h
    simp [getManager, hm, h]
  · intro h
    refine ⟨by simp [getManager, hm, bne_iff_ne.2 h], ?_⟩
    have := hwf m hm
    simp [mkManager]
    omega

/-- Witness for C4 amended: an explicit iOS request against a held desktop
instance constructs a fresh instance after a close attempt on the old one. -/
theorem provider_switch_iff_kind_changes_witness :
    (isIOSProvider emptyEnv (JsValue.jstr "ios") =
        ((Manager.mk MgrKind.browser 0 true).kind == MgrKind.ios) →
      getManager emptyEnv (JsValue.jstr "ios")
          (SrvState.mk (some (Manager.mk MgrKind.browser 0 true)) 1) =
        (Manager.mk MgrKind.browser 0 true,
         SrvState.mk (some (Manager.mk MgrKind.browser 0 true)) 1, [])) ∧
    (isIOSProvider emptyEnv (JsValue.jstr "ios") ≠
        ((Manager.mk MgrKind.browser 0 true).kind == MgrKind.ios) →
      getManager emptyEnv (JsValue.jstr "ios")
          (SrvState.mk (some (Manager.mk MgrKind.browser 0 true)) 1) =
        (mkManager (isIOSProvider emptyEnv (JsValue.jstr "ios")) 1,
         { manager := some (mkManager (isIOSProvider emptyEnv (JsValue.jstr "ios")) 1),
           nextInst := 2 },
         [Event.closeAttempt 0]) ∧
      (mkManager (isIOSProvider emptyEnv (JsValue.jstr "ios")) 1).instId ≠ 0) :=
  provider_switch_iff_kind_changes emptyEnv (JsValue.jstr "ios")
    (SrvState.mk (some (Manager.mk MgrKind.browser 0 true)) 1)
    (Manager.mk MgrKind.browser 0 true) rfl
    (by intro m h; cases h; decide)

/-- A failed `ensureBrowserLaunched` can only stem from a failed driver
launch, and surfaces that launch exception's message. -/
theorem ensure_error_from_launch (env : Env) (d : Driver) (st : SrvState)
    {le : String} {st2 : SrvState} {ev2 : List Event}
    (h : ensureBrowserLaunched env d st = (Except.error le, st2, ev2)) :
    d.launchRes = Except.error le := by
  unfold ensureBrowserLaunched at h
  rcases hgm : getManager env JsValue.undef st with ⟨m, st1, ev1⟩
  rw [hgm] at h
  by_cases hl : m.launched <;> cases hlr : d.launchRes <;> simp [hl, hlr] at h <;>
    first
      | rfl
      | rw [h.1]
      | simp [hlr, h.1]

/-- The try-block of `execute` resolves with the uniform error response on a
driver failure, or raises the driver's or the auto-launch's exception. -/
theorem executeTry_first (env : Env) (d : Driver) (command : Obj)
    (m : Manager) (st : SrvState) (e : String)
    (h : d.execRes command = DriverOut.fail e ∨ d.execRes command = DriverOut.raise e) :
    (executeTry env d command m st).1 = Except.ok (errorResponse e) ∨
    (executeTry env d command m st).1 = Except.error e ∨
    ∃ le, d.launchRes = Except.error le ∧
      (executeTry env d command m st).1 = Except.error le := by
  unfold executeTry
  by_cases hc : (!m.launched &&
      !(isStrVal (jsIndex command "action") "launch" ||
        isStrVal (jsIndex command "action") "close" ||
        isStrVal (jsIndex command "action") "device_list" ||
        isStrVal (jsIndex command "action") "video_start" ||
        isStrVal (jsIndex command "action") "video_stop")) = true
  · rw [if_pos hc]
    rcases hen : ensureBrowserLaunched env d st with ⟨eo, st2, ev2⟩
    try rw [hen]
    cases eo with
    | error le =>
        exact Or.inr (Or.inr ⟨le, ensure_error_from_launch env d st hen, rfl⟩)
    | ok u =>
        rcases h with hf | hr
        · exact Or.inl (by simp only [hf])
        · exact Or.inr (Or.inl (by simp only [hr]))
  · rw [if_neg hc]
    rcases h with hf | hr
    · exact Or.inl (by simp only [hf])
    · exact Or.inr (Or.inl (by simp only [hr]))

/-- C1: whenever driver execution reports failure (`success: false`) or
throws, `execute` resolves — it never throws, every failure below the
manager resolution being caught and converted — with the uniform shape
`{content: [{type: 'text', text: 'Error: <message>'}]}`, where the message
is the driver's error string, the thrown exception's message, or (when the
auto-launch inside the `try` failed before the driver ran) that launch
exception's message. -/
theorem execute_uniform_error_shape (env : Env) (d : Driver) (command : Obj)
    (st : SrvState) (e : String)
    (h : d.execRes command = DriverOut.fail e ∨ d.execRes command = DriverOut.raise e) :
    ∃ msg, (execute env d command st).1 = errorResponse msg ∧
      (msg = e ∨ d.launchRes = Except.error msg) := by
  unfold execute
  rcases hgm : getManager env
      (if isStrVal (jsIndex command "action") "launch" then jsIndex command "provider"
       else JsValue.undef) st with ⟨m, st1, ev1⟩
  try rw [hgm]
  obtain hcase := executeTry_first env d command m st1 e h
  rcases hT : executeTry env d command m st1 with ⟨res, stx, evx⟩
  rw [hT] at hcase
  rcases hcase with h1 | h1 | ⟨le, hlr, h1⟩
  · have h2 : res = Except.ok (errorResponse e) := h1
    subst h2
    exact ⟨e, by simp only [hT], Or.inl rfl⟩
  · have h2 : res = Except.error e := h1
    subst h2
    exact ⟨e, by simp only [hT], Or.inl rfl⟩
  · have h2 : res = Except.error le := h1
    subst h2
    exact ⟨le, by simp only [hT], Or.inr hlr⟩

/-- Witness for C1: a driver failing with message `boom` on a `navigate`
command makes `execute` answer the uniform error shape with that message. -/
theorem execute_uniform_error_shape_witness :
    ∃ msg, (execute emptyEnv (failingDriver "boom")
        [("action", JsValue.jstr "navigate")] initialState).1 = errorResponse msg ∧
      (msg = "boom" ∨ (failingDriver "boom").launchRes = Except.error msg) :=
  execute_uniform_error_shape emptyEnv (failingDriver "boom")
    [("action", JsValue.jstr "navigate")] initialState "boom" (Or.inl rfl)


/-- C5 amended: for every merged tool and every optional schema field in
`omissionSafeTable` (all declared optional fields except the
unconditionally-copied ones its doc comment lists and the media-emulation
trio the claim itself excepts), calling the mapper with the field absent
from the argument bag — for `browser_find`, with a declared `method` value —
yields a command from which the field is absent entirely. -/
theorem optional_field_omission
    (p : String × List String) (hp : p ∈ omissionSafeTable)
    (f : String) (hf : f ∈ p.2) (args : Obj)
    (hdisc : findMethodOk p.1 args)
    (habs : getField args f = none) (cmd : Obj)
    (hmap : mapMergedToolToCommand p.1 args = Except.ok cmd) :
    getField cmd f = none := by
  have hdf := jsDefined_eq_false habs
  have habk := (getField_eq_none_iff args f).1 habs
  fin_cases hp <;> fin_cases hf <;>
    (have hcmd := (Except.ok.inj hmap).symm
     subst hcmd) <;>
    first
    | (simp only [caseLaunch, caseNavigate, caseSnapshot, caseScreenshot,
         caseAddScript, caseAddStyle]
       rw [getField_objSpread_of_not_mem args _ _ habk]
       simp [getField]
       done)
    | (simp [caseElementAction, caseInput, caseSelect, casePress, caseScroll,
        caseStorage, caseCookies, caseSetContext, caseDialog, caseMouse,
        caseNetwork, caseResponseBody, caseEvaluate, caseDispatchEvent,
        caseScreencast, caseTrace, caseRecording, caseTab, caseWindow,
        caseFrame, casePdf, caseWait, caseWaitFor, caseClipboard, caseIosSwipe,
        hdf, getField_ite, getField_setKey, getField, mapLookup, jsToString,
        storageActionMap, waitForActionMap, nullish, isStrVal, List.lookup]
       done)
    | (obtain ⟨s, hs, hms⟩ := hdisc rfl
       fin_cases hs <;>
         simp [caseFind, hms, hdf, getField_ite, getField_setKey, getField,
           mapLookup, jsToString, findByActionMap, nullish, isStrVal, List.lookup])

/-- Witness for C5 amended: `browser_wait` called without its optional
`timeout` yields a command without `timeout`. -/
theorem optional_field_omission_witness :
    getField [("action", JsValue.jstr "wait"), ("selector", JsValue.jstr "#a")] "timeout" = none :=
  optional_field_omission ("browser_wait", ["selector", "timeout", "state"])
    (by simp [omissionSafeTable]) "timeout" (by simp) [("selector", JsValue.jstr "#a")]
    (fun hcon => absurd hcon (by decide)) rfl
    [("action", JsValue.jstr "wait"), ("selector", JsValue.jstr "#a")] rfl

/-- C10: for the seven spread-mapped tools an argument bag carrying an
`action` key overrides the canonical action tag with the caller-supplied
value (`spreadHijackCheck`), while for every other merged tool the
command's `action` is determined solely by the tool name and the values of
its declared discriminant arguments (`actionDeterminingKeys`), given a
declared `method` value for `browser_find`. -/
theorem merged_action_determination :
    spreadHijackCheck = true ∧
    ∀ p ∈ actionDeterminingKeys, ∀ a b : Obj,
      findMethodOk p.1 a →
      (∀ k ∈ p.2, jsIndex a k = jsIndex b k) →
      actionOf (mapMergedToolToCommand p.1 a) = actionOf (mapMergedToolToCommand p.1 b) := by
  refine ⟨rfl, ?_⟩
  intro p hp a b hfa hag
  fin_cases hp <;>
    first
    | (show getField _ "action" = getField _ "action"
       first
       | (have h1 := hag _ (List.mem_cons_self _ _)
          simp [caseHistory, casePageInfo, caseElementAction, caseInput, caseInputAction,
            caseScroll, caseGet, caseCheckState, caseStorage, caseCookies, caseState,
            caseSetContext, caseDialog, caseMouse, caseKeyboardRaw, caseNetwork,
            caseLogs, caseScreencast, caseTrace, caseRecording, caseHar, caseTab,
            caseWindow, caseFrame, caseWaitFor, caseClipboard,
            h1, jsDefined, getField_ite, getField_setKey, getField, mapLookup,
            jsToString, getActionMap, stateActionMap, storageActionMap, waitForActionMap,
            nullish, isStrVal, List.lookup]
          done)
       | (simp [caseSelect, casePress, caseResponseBody, caseEvaluate, caseSetContent,
           caseAddInitScript, caseDispatchEvent, caseHighlight, caseStyles, casePdf,
           caseDownload, caseWait, caseUpload, caseDrag, caseMultiselect, caseSetValue,
           caseIosDeviceList, caseIosSwipe, caseClipboard,
           jsDefined, getField_ite, getField_setKey, getField, nullish, isStrVal]
          done))
    | (obtain ⟨s, hs, hma⟩ := hfa rfl
       have hmb : jsIndex b "method" = JsValue.jstr s :=
         (hag "method" (by decide)).symm.trans hma
       have hac := hag "action" (by decide)
       show getField _ "action" = getField _ "action"
       fin_cases hs <;>
         simp [caseFind, hma, hmb, hac, jsDefined, getField_ite, getField_setKey,
           getField, mapLookup, jsToString, findByActionMap, nullish, isStrVal, List.lookup])

/-- Witness for C10 at a concrete pair: two `browser_mouse` bags agreeing on
`action` (but differing on `x`) map to commands with the same `action`. -/
theorem merged_action_determination_witness :
    actionOf (mapMergedToolToCommand "browser_mouse"
      [("action", JsValue.jstr "move"), ("x", JsValue.jnum 1)]) =
    actionOf (mapMergedToolToCommand "browser_mouse"
      [("action", JsValue.jstr "move"), ("x", JsValue.jnum 2)]) :=
  merged_action_determination.2 ("browser_mouse", ["action"]) (by simp [actionDeterminingKeys])
    [("action", JsValue.jstr "move"), ("x", JsValue.jnum 1)]
    [("action", JsValue.jstr "move"), ("x", JsValue.jnum 2)]
    (fun hcon => absurd hcon (by decide))
    (by intro k hk; simp at hk; subst hk; rfl)


end AgentBrowser
